import Mathlib

/-!
Verification development for the transmitter-outage monitoring application
(`RW_Outage_app.py`): a shallow embedding of the record validator, the
availability aggregator (`build_comprehensive_summary`), the edit path and the
full-year projection block, together with theorems settling the specification
claims about them.

Modelling conventions:
* calendar dates are `SDate` triples (proleptic Gregorian);
* times of day are minutes after midnight (`Nat`), matching the source's
  `hour * 60 + minute` computations;
* pandas/NumPy numeric columns are modelled with exact rationals `ℚ`;
* a raw record's `Date` cell is `Option SDate`: `none` models a value that
  `pd.to_datetime(..., errors = coerce)` turns into `NaT`;
* the dictionary returned by `build_comprehensive_summary` is modelled by
  `SummaryResult`; its optional `ytd` entry is the three-state `YtdField`
  (`missing` when the early-return dictionaries carry no `ytd` key at all,
  `emptyDict` for the falsy `{}` value, `present s` for a populated summary).
-/

namespace RWOutage

/-- A calendar date: year, month (1-12), day (1-31). -/
structure SDate where
  year : Nat
  month : Nat
  day : Nat
deriving DecidableEq, Repr

/-- Gregorian leap-year rule, as used by `pd.Period(...).is_leap_year`:
divisible by 4 and (not by 100 or by 400). -/
def is_leap_year (y : Nat) : Bool :=
  y % 4 == 0 && (y % 100 != 0 || y % 400 == 0)

/-- Days in a Gregorian month, as computed by `pd.Period(...).days_in_month`. -/
def days_in_month (y m : Nat) : Nat :=
  if m == 2 then (if is_leap_year y then 29 else 28)
  else if m == 4 || m == 6 || m == 9 || m == 11 then 30
  else 31

/-- Month name produced by `strftime` with the full-month format. -/
def month_name (m : Nat) : String :=
  match m with
  | 1 => "January" | 2 => "February" | 3 => "March" | 4 => "April"
  | 5 => "May" | 6 => "June" | 7 => "July" | 8 => "August"
  | 9 => "September" | 10 => "October" | 11 => "November" | 12 => "December"
  | _ => ""

/-- Lexicographic comparison of dates (the order `datetime.date` uses). -/
def dateLeB (a b : SDate) : Bool :=
  a.year < b.year ||
    (a.year == b.year &&
      (a.month < b.month || (a.month == b.month && a.day ≤ b.day)))

/-- One row of the downtime log as stored in the spreadsheet.  The `Date`
cell is `none` when the value fails to parse (pandas `NaT`). -/
structure RawRecord where
  Date : Option SDate
  Start_Time : Nat
  End_Time : Nat
  Downtime_minutes : ℚ
  Failure_Type : String
  Remarks : String
deriving DecidableEq, Repr

/-- A record whose date parsed successfully. -/
structure ParsedRecord where
  Date : SDate
  Start_Time : Nat
  End_Time : Nat
  Downtime_minutes : ℚ
  Failure_Type : String
  Remarks : String
deriving DecidableEq, Repr

/-- `pd.to_datetime(..., errors = coerce)` followed by `dropna` keeps exactly
the rows whose date parses; this maps one raw row to its parsed form. -/
def parse_record (r : RawRecord) : Option ParsedRecord :=
  match r.Date with
  | none => none
  | some d => some ⟨d, r.Start_Time, r.End_Time, r.Downtime_minutes,
      r.Failure_Type, r.Remarks⟩

/-- Python `str.strip`: drop leading and trailing whitespace. -/
def pyStrip (s : String) : String :=
  String.mk (((s.toList.dropWhile Char.isWhitespace).reverse.dropWhile
    Char.isWhitespace).reverse)

/-- `validate_time_input` from the source: end after start, then containment
in the broadcast window 04:30-22:00 (270-1320 minutes).  The `date` argument
is accepted and ignored exactly as in the source. -/
def validate_time_input (start_time end_time : Nat) (date : SDate) :
    Bool × String :=
  if end_time ≤ start_time then
    (false, "End time must be after start time")
  else
    let start_minutes := start_time
    let end_minutes := end_time
    let broadcast_start := 4 * 60 + 30
    let broadcast_end := 22 * 60
    if start_minutes < broadcast_start || broadcast_end < end_minutes then
      (false, "Times must be within broadcast hours (4:30 AM - 10:00 PM)")
    else (true, "")

/-- `validate_required_fields` from the source; `none` models a missing
(Python `None`) value, and the failure type must be non-blank after strip. -/
def validate_required_fields (date : Option SDate)
    (start_time end_time : Option Nat) (failure_type : String) :
    Bool × String :=
  if date.isNone then (false, "Date is required")
  else if start_time.isNone then (false, "Start time is required")
  else if end_time.isNone then (false, "End time is required")
  else if pyStrip failure_type == "" then (false, "Failure type is required")
  else (true, "")

/-- `check_duplicate_entry` from the source: among rows with the same parsed
date, report an overlap when `start_time < existing_end` and
`end_time > existing_start`. -/
def check_duplicate_entry (df : List RawRecord) (date : SDate)
    (start_time end_time : Nat) : Bool :=
  if df.isEmpty then false
  else
    (df.filter (fun r => r.Date == some date)).any
      (fun r => start_time < r.End_Time && end_time > r.Start_Time)

/-- The constant `BROADCAST_HOURS_PER_DAY = 17.5` from the source. -/
def BROADCAST_HOURS_PER_DAY : ℚ := 35 / 2

/-- pandas `max` over a column of group values (groups are never empty). -/
def list_max : List ℚ → ℚ
  | [] => 0
  | x :: xs => xs.foldl max x

/-- pandas `min` over a column of group values (groups are never empty). -/
def list_min : List ℚ → ℚ
  | [] => 0
  | x :: xs => xs.foldl min x

/-- One row of the `Monthly_Summary` sheet (the `Month_Num` grouping key is
kept alongside the fields the source exports). -/
structure MonthlyRow where
  Year : Nat
  Month : String
  Month_Num : Nat
  Total_Downtime_Minutes : ℚ
  Failure_Count : Nat
  Avg_Downtime_Per_Failure : ℚ
  Days_in_Month : Nat
  Total_Broadcast_Minutes : ℚ
  Availability_pct : ℚ
deriving DecidableEq, Repr

/-- One row of the `Yearly_Summary` sheet. -/
structure YearlyRow where
  Year : Nat
  Total_Downtime_Minutes : ℚ
  Failure_Count : Nat
  Avg_Downtime_Per_Failure : ℚ
  Max_Downtime : ℚ
  Min_Downtime : ℚ
  Days_in_Year : Nat
  Total_Broadcast_Minutes : ℚ
  Availability_pct : ℚ
  Max_Downtime_hours : ℚ
  Min_Downtime_hours : ℚ
deriving DecidableEq, Repr

/-- The `ytd_summary` dictionary built for the current year. -/
structure YtdSummary where
  current_year : Nat
  days_elapsed : Nat
  total_broadcast_minutes : ℚ
  total_downtime_minutes : ℚ
  ytd_availability_pct : ℚ
  failure_count : Nat
  avg_downtime_per_failure : ℚ
deriving DecidableEq, Repr

/-- The `ytd` entry of the result dictionary: the early-return dictionaries
have no `ytd` key at all (`missing`), the no-record case stores the falsy
empty dictionary (`emptyDict`), otherwise a populated summary is stored. -/
inductive YtdField where
  | missing
  | emptyDict
  | present (s : YtdSummary)
deriving DecidableEq, Repr

/-- Whether the `ytd` entry carries usable data: Python callers test the
entry with `if ytd_summary:`, which is false for a missing key's default and
for the empty dictionary. -/
def YtdField.hasData : YtdField → Bool
  | .present _ => true
  | _ => false

/-- The dictionary returned by `build_comprehensive_summary`. -/
structure SummaryResult where
  monthly : List MonthlyRow
  yearly : List YearlyRow
  ytd : YtdField
deriving DecidableEq, Repr

/-- Grouping key of the monthly summary: `(Year, Month_Num)`. -/
def month_key (r : ParsedRecord) : Nat × Nat :=
  (r.Date.year, r.Date.month)

/-- Lexicographic order on `(Year, Month_Num)` keys, the order pandas sorts
grouped keys and `sort_values(["Year", "Month_Num"])` uses. -/
def keyLe (a b : Nat × Nat) : Prop :=
  a.1 < b.1 ∨ (a.1 = b.1 ∧ a.2 ≤ b.2)

instance : DecidableRel keyLe := fun a b => by
  unfold keyLe; infer_instance

instance : IsTotal (Nat × Nat) keyLe where
  total a b := by unfold keyLe; omega

instance : IsTrans (Nat × Nat) keyLe where
  trans a b c := by unfold keyLe; omega

instance : IsAntisymm (Nat × Nat) keyLe where
  antisymm a b := by
    rcases a with ⟨a1, a2⟩
    rcases b with ⟨b1, b2⟩
    unfold keyLe
    intro h h2
    simp only [Prod.mk.injEq]
    omega

/-- The records of one `(year, month)` group. -/
def month_group (rs : List ParsedRecord) (y m : Nat) : List ParsedRecord :=
  rs.filter (fun r => r.Date.year == y && r.Date.month == m)

/-- The aggregates the source computes for one `(year, month)` group. -/
def monthly_row (rs : List ParsedRecord) (k : Nat × Nat) : MonthlyRow :=
  let grp := month_group rs k.1 k.2
  let total := (grp.map (fun r => r.Downtime_minutes)).sum
  let cnt := grp.length
  let dim := days_in_month k.1 k.2
  let budget : ℚ := (dim : ℚ) * BROADCAST_HOURS_PER_DAY * 60
  { Year := k.1
    Month := month_name k.2
    Month_Num := k.2
    Total_Downtime_Minutes := total
    Failure_Count := cnt
    Avg_Downtime_Per_Failure := total / (cnt : ℚ)
    Days_in_Month := dim
    Total_Broadcast_Minutes := budget
    Availability_pct := (budget - total) / budget * 100 }

/-- The distinct `(Year, Month_Num)` keys of the record set, ascending. -/
def monthly_keys (rs : List ParsedRecord) : List (Nat × Nat) :=
  List.insertionSort keyLe ((rs.map month_key).dedup)

/-- The monthly summary: one row per occupied `(year, month)` key, rows
sorted ascending by `(Year, Month_Num)`. -/
def monthly_summary (rs : List ParsedRecord) : List MonthlyRow :=
  (monthly_keys rs).map (monthly_row rs)

/-- The records of one year group. -/
def year_group (rs : List ParsedRecord) (y : Nat) : List ParsedRecord :=
  rs.filter (fun r => r.Date.year == y)

/-- The aggregates the source computes for one year group. -/
def yearly_row (rs : List ParsedRecord) (y : Nat) : YearlyRow :=
  let grp := year_group rs y
  let ds := grp.map (fun r => r.Downtime_minutes)
  let total := ds.sum
  let cnt := grp.length
  let diy : Nat := if is_leap_year y then 366 else 365
  let budget : ℚ := (diy : ℚ) * BROADCAST_HOURS_PER_DAY * 60
  { Year := y
    Total_Downtime_Minutes := total
    Failure_Count := cnt
    Avg_Downtime_Per_Failure := total / (cnt : ℚ)
    Max_Downtime := list_max ds
    Min_Downtime := list_min ds
    Days_in_Year := diy
    Total_Broadcast_Minutes := budget
    Availability_pct := (budget - total) / budget * 100
    Max_Downtime_hours := list_max ds / 60
    Min_Downtime_hours := list_min ds / 60 }

/-- The distinct year keys of the record set, ascending. -/
def yearly_keys (rs : List ParsedRecord) : List Nat :=
  List.insertionSort (fun a b => a ≤ b) ((rs.map (fun r => r.Date.year)).dedup)

/-- The yearly summary: one row per occupied year, ascending by year. -/
def yearly_summary (rs : List ParsedRecord) : List YearlyRow :=
  (yearly_keys rs).map (yearly_row rs)

/-- Ordinal day of the year of a date, modelling
`(current_date - date(Y, 1, 1)).days + 1` for Gregorian dates. -/
def day_of_year (d : SDate) : Nat :=
  ((List.range (d.month - 1)).map (fun i => days_in_month d.year (i + 1))).sum
    + d.day

/-- The year-to-date selection: records of the current year dated no later
than today. -/
def ytd_outages (rs : List ParsedRecord) (today : SDate) : List ParsedRecord :=
  rs.filter (fun r => r.Date.year == today.year && dateLeB r.Date today)

/-- The populated `ytd_summary` dictionary for a non-empty YTD selection. -/
def ytd_summary_of (sel : List ParsedRecord) (today : SDate) : YtdSummary :=
  let days_elapsed := day_of_year today
  let total_ytd_broadcast_minutes : ℚ :=
    (days_elapsed : ℚ) * BROADCAST_HOURS_PER_DAY * 60
  let total_ytd_downtime_minutes := (sel.map (fun r => r.Downtime_minutes)).sum
  { current_year := today.year
    days_elapsed := days_elapsed
    total_broadcast_minutes := total_ytd_broadcast_minutes
    total_downtime_minutes := total_ytd_downtime_minutes
    ytd_availability_pct :=
      (total_ytd_broadcast_minutes - total_ytd_downtime_minutes) /
        total_ytd_broadcast_minutes * 100
    failure_count := sel.length
    avg_downtime_per_failure :=
      total_ytd_downtime_minutes / (sel.length : ℚ) }

/-- `build_comprehensive_summary` from the source: early return on an empty
frame, coerce-and-drop unparseable dates, early return if nothing parses,
then the monthly, yearly and year-to-date summaries. -/
def build_comprehensive_summary (df : List RawRecord) (today : SDate) :
    SummaryResult :=
  if df.isEmpty then ⟨[], [], .missing⟩
  else
    let rs := df.filterMap parse_record
    if rs.isEmpty then ⟨[], [], .missing⟩
    else
      let sel := ytd_outages rs today
      { monthly := monthly_summary rs
        yearly := yearly_summary rs
        ytd := if sel.isEmpty then .emptyDict
          else .present (ytd_summary_of sel today) }

/-- Proof-layer view of `build_comprehensive_summary`: the summary as a
function of the already-parsed record list.  Both early returns of the source
collapse to the parsed list being empty. -/
def summary_core (rs : List ParsedRecord) (today : SDate) : SummaryResult :=
  if rs.isEmpty then ⟨[], [], .missing⟩
  else
    let sel := ytd_outages rs today
    { monthly := monthly_summary rs
      yearly := yearly_summary rs
      ytd := if sel.isEmpty then .emptyDict
        else .present (ytd_summary_of sel today) }

/-- The edit path of the Edit Records page: re-validate required fields and
times, recompute the downtime, and overwrite the record in place.  The source
performs no overlap check here. -/
def edit_record (df : List RawRecord) (i : Nat) (date : SDate)
    (start_time end_time : Nat) (failure_type remarks : String) :
    Option (List RawRecord) :=
  if !(validate_required_fields (some date) (some start_time) (some end_time)
      failure_type).1 then none
  else if !(validate_time_input start_time end_time date).1 then none
  else
    let downtime_minutes : ℚ := (end_time : ℚ) - (start_time : ℚ)
    some (df.set i
      { Date := some date
        Start_Time := start_time
        End_Time := end_time
        Downtime_minutes := downtime_minutes
        Failure_Type := failure_type
        Remarks := remarks })

/-- The full-year projection block of the View Summary page: shown only when
fewer than 365 days have elapsed, extrapolating the YTD downtime rate over a
fixed 365-day year.  Returns the pair (projected total downtime, projected
availability percent). -/
def projected_full_year (y : YtdSummary) : Option (ℚ × ℚ) :=
  if y.days_elapsed < 365 then
    let days_remaining := 365 - y.days_elapsed
    let projected_remaining_downtime :=
      (y.total_downtime_minutes / (y.days_elapsed : ℚ)) * (days_remaining : ℚ)
    let projected_total_downtime :=
      y.total_downtime_minutes + projected_remaining_downtime
    let projected_availability :=
      ((365 * BROADCAST_HOURS_PER_DAY * 60 - projected_total_downtime) /
        (365 * BROADCAST_HOURS_PER_DAY * 60)) * 100
    some (projected_total_downtime, projected_availability)
  else none

/-- Sample parsed record (the spec example: 2024-02-15, 60 minutes). -/
def sampleFeb : ParsedRecord := ⟨⟨2024, 2, 15⟩, 540, 600, 60, "Power", ""⟩

/-- Sample parsed record in another month. -/
def sampleJan : ParsedRecord := ⟨⟨2024, 1, 9⟩, 540, 570, 30, "Link", ""⟩

/-- Raw form of the February sample record. -/
def sampleRawFeb : RawRecord := ⟨some ⟨2024, 2, 15⟩, 540, 600, 60, "Power", ""⟩

/-- Raw record occupying 09:00-10:00 on 2024-03-05. -/
def sampleRawMar1 : RawRecord := ⟨some ⟨2024, 3, 5⟩, 540, 600, 60, "Power", ""⟩

/-- Raw record occupying 11:00-12:00 on 2024-03-05. -/
def sampleRawMar2 : RawRecord := ⟨some ⟨2024, 3, 5⟩, 660, 720, 60, "Link", ""⟩

/-- A sample current date inside the sample records' year. -/
def sampleToday : SDate := ⟨2024, 10, 12⟩

/-! ### Helper lemmas -/

lemma foldl_max_mem (xs : List ℚ) : ∀ x : ℚ,
    xs.foldl max x = x ∨ xs.foldl max x ∈ xs := by
  induction xs with
  | nil => intro x; exact Or.inl rfl
  | cons y ys ih =>
    intro x
    rw [List.foldl_cons]
    rcases ih (max x y) with h | h
    · rw [h]
      rcases le_total x y with h2 | h2
      · right; rw [max_eq_right h2]; exact List.mem_cons_self _ _
      · left; exact max_eq_left h2
    · right; exact List.mem_cons_of_mem _ h

lemma le_foldl_max (xs : List ℚ) : ∀ x : ℚ,
    x ≤ xs.foldl max x ∧ ∀ y ∈ xs, y ≤ xs.foldl max x := by
  induction xs with
  | nil => intro x; simp
  | cons z zs ih =>
    intro x
    rw [List.foldl_cons]
    refine ⟨le_trans (le_max_left x z) (ih (max x z)).1, ?_⟩
    intro y hy
    rcases List.mem_cons.mp hy with rfl | hy
    · exact le_trans (le_max_right x y) (ih (max x y)).1
    · exact (ih (max x z)).2 y hy

lemma list_max_spec (l : List ℚ) (h : l ≠ []) :
    list_max l ∈ l ∧ ∀ x ∈ l, x ≤ list_max l := by
  match l with
  | [] => exact absurd rfl h
  | x :: xs =>
    constructor
    · rcases foldl_max_mem xs x with h2 | h2
      · rw [list_max, h2]; exact List.mem_cons_self _ _
      · rw [list_max]; exact List.mem_cons_of_mem _ h2
    · intro y hy
      rcases List.mem_cons.mp hy with rfl | hy
      · exact (le_foldl_max xs y).1
      · exact (le_foldl_max xs x).2 y hy

lemma foldl_min_mem (xs : List ℚ) : ∀ x : ℚ,
    xs.foldl min x = x ∨ xs.foldl min x ∈ xs := by
  induction xs with
  | nil => intro x; exact Or.inl rfl
  | cons y ys ih =>
    intro x
    rw [List.foldl_cons]
    rcases ih (min x y) with h | h
    · rw [h]
      rcases le_total x y with h2 | h2
      · left; exact min_eq_left h2
      · right; rw [min_eq_right h2]; exact List.mem_cons_self _ _
    · right; exact List.mem_cons_of_mem _ h

lemma foldl_min_le (xs : List ℚ) : ∀ x : ℚ,
    xs.foldl min x ≤ x ∧ ∀ y ∈ xs, xs.foldl min x ≤ y := by
  induction xs with
  | nil => intro x; simp
  | cons z zs ih =>
    intro x
    rw [List.foldl_cons]
    refine ⟨le_trans (ih (min x z)).1 (min_le_left x z), ?_⟩
    intro y hy
    rcases List.mem_cons.mp hy with rfl | hy
    · exact le_trans (ih (min x y)).1 (min_le_right x y)
    · exact (ih (min x z)).2 y hy

lemma list_min_spec (l : List ℚ) (h : l ≠ []) :
    list_min l ∈ l ∧ ∀ x ∈ l, list_min l ≤ x := by
  match l with
  | [] => exact absurd rfl h
  | x :: xs =>
    constructor
    · rcases foldl_min_mem xs x with h2 | h2
      · rw [list_min, h2]; exact List.mem_cons_self _ _
      · rw [list_min]; exact List.mem_cons_of_mem _ h2
    · intro y hy
      rcases List.mem_cons.mp hy with rfl | hy
      · exact (foldl_min_le xs y).1
      · exact (foldl_min_le xs x).2 y hy

lemma list_max_perm {l₁ l₂ : List ℚ} (h : l₁.Perm l₂) :
    list_max l₁ = list_max l₂ := by
  rcases eq_or_ne l₁ [] with rfl | h1
  · rw [h.symm.eq_nil]
  · have h2 : l₂ ≠ [] := by
      intro h2; subst h2; exact h1 h.eq_nil
    obtain ⟨hm1, hb1⟩ := list_max_spec l₁ h1
    obtain ⟨hm2, hb2⟩ := list_max_spec l₂ h2
    exact le_antisymm (hb2 _ (h.mem_iff.mp hm1)) (hb1 _ (h.mem_iff.mpr hm2))

lemma list_min_perm {l₁ l₂ : List ℚ} (h : l₁.Perm l₂) :
    list_min l₁ = list_min l₂ := by
  rcases eq_or_ne l₁ [] with rfl | h1
  · rw [h.symm.eq_nil]
  · have h2 : l₂ ≠ [] := by
      intro h2; subst h2; exact h1 h.eq_nil
    obtain ⟨hm1, hb1⟩ := list_min_spec l₁ h1
    obtain ⟨hm2, hb2⟩ := list_min_spec l₂ h2
    exact le_antisymm (hb1 _ (h.mem_iff.mpr hm2)) (hb2 _ (h.mem_iff.mp hm1))

lemma mem_monthly_keys (rs : List ParsedRecord) (k : Nat × Nat) :
    k ∈ monthly_keys rs ↔ ∃ r ∈ rs, month_key r = k := by
  unfold monthly_keys
  rw [(List.perm_insertionSort keyLe _).mem_iff, List.mem_dedup, List.mem_map]

lemma monthly_keys_sorted (rs : List ParsedRecord) :
    (monthly_keys rs).Pairwise keyLe :=
  List.sorted_insertionSort keyLe _

lemma monthly_keys_nodup (rs : List ParsedRecord) :
    (monthly_keys rs).Nodup :=
  ((List.perm_insertionSort keyLe _).nodup_iff).mpr (List.nodup_dedup _)

lemma monthly_keys_strict (rs : List ParsedRecord) :
    (monthly_keys rs).Pairwise
      (fun a b => a.1 < b.1 ∨ (a.1 = b.1 ∧ a.2 < b.2)) := by
  refine List.Pairwise.imp₂ ?_ (monthly_keys_sorted rs) (monthly_keys_nodup rs)
  rintro ⟨a1, a2⟩ ⟨b1, b2⟩ hle hne
  simp only [keyLe] at hle
  simp only [ne_eq, Prod.mk.injEq, not_and] at hne
  rcases eq_or_ne a1 b1 with rfl | h
  · simp only [forall_const] at hne
    omega
  · omega

lemma mem_yearly_keys (rs : List ParsedRecord) (y : Nat) :
    y ∈ yearly_keys rs ↔ ∃ r ∈ rs, r.Date.year = y := by
  unfold yearly_keys
  rw [(List.perm_insertionSort _ _).mem_iff, List.mem_dedup, List.mem_map]

lemma yearly_keys_sorted (rs : List ParsedRecord) :
    (yearly_keys rs).Pairwise (fun a b => a ≤ b) :=
  List.sorted_insertionSort _ _

lemma yearly_keys_nodup (rs : List ParsedRecord) :
    (yearly_keys rs).Nodup :=
  ((List.perm_insertionSort _ _).nodup_iff).mpr (List.nodup_dedup _)

lemma filterMap_parse_filter (df : List RawRecord) :
    (df.filter (fun r => r.Date.isSome)).filterMap parse_record =
      df.filterMap parse_record := by
  induction df with
  | nil => rfl
  | cons r t ih =>
    cases hr : r.Date with
    | none => simp [List.filterMap_cons, parse_record, hr, ih]
    | some d => simp [List.filterMap_cons, parse_record, hr, ih]

lemma build_eq_core (df : List RawRecord) (today : SDate) :
    build_comprehensive_summary df today =
      summary_core (df.filterMap parse_record) today := by
  cases df with
  | nil => rfl
  | cons r t => simp [build_comprehensive_summary, summary_core]

lemma monthly_keys_perm {rs₁ rs₂ : List ParsedRecord} (h : rs₁.Perm rs₂) :
    monthly_keys rs₁ = monthly_keys rs₂ := by
  apply List.eq_of_perm_of_sorted (r := keyLe)
  · exact (List.perm_insertionSort keyLe _).trans
      (((h.map month_key).dedup).trans
        (List.perm_insertionSort keyLe _).symm)
  · exact monthly_keys_sorted rs₁
  · exact monthly_keys_sorted rs₂

lemma monthly_row_perm {rs₁ rs₂ : List ParsedRecord} (h : rs₁.Perm rs₂)
    (k : Nat × Nat) : monthly_row rs₁ k = monthly_row rs₂ k := by
  have hg : (month_group rs₁ k.1 k.2).Perm (month_group rs₂ k.1 k.2) :=
    h.filter _
  simp only [monthly_row]
  rw [(hg.map (fun r => r.Downtime_minutes)).sum_eq, hg.length_eq]

lemma monthly_summary_perm {rs₁ rs₂ : List ParsedRecord} (h : rs₁.Perm rs₂) :
    monthly_summary rs₁ = monthly_summary rs₂ := by
  unfold monthly_summary
  rw [monthly_keys_perm h]
  exact List.map_congr_left (fun k _ => monthly_row_perm h k)

lemma yearly_keys_perm {rs₁ rs₂ : List ParsedRecord} (h : rs₁.Perm rs₂) :
    yearly_keys rs₁ = yearly_keys rs₂ := by
  apply List.eq_of_perm_of_sorted (r := fun a b => a ≤ b)
  · exact (List.perm_insertionSort _ _).trans
      (((h.map (fun r => r.Date.year)).dedup).trans
        (List.perm_insertionSort _ _).symm)
  · exact yearly_keys_sorted rs₁
  · exact yearly_keys_sorted rs₂

lemma yearly_row_perm {rs₁ rs₂ : List ParsedRecord} (h : rs₁.Perm rs₂)
    (y : Nat) : yearly_row rs₁ y = yearly_row rs₂ y := by
  have hg : (year_group rs₁ y).Perm (year_group rs₂ y) := h.filter _
  have hd : ((year_group rs₁ y).map (fun r => r.Downtime_minutes)).Perm
      ((year_group rs₂ y).map (fun r => r.Downtime_minutes)) := hg.map _
  simp only [yearly_row]
  rw [hd.sum_eq, hg.length_eq, list_max_perm hd, list_min_perm hd]

lemma yearly_summary_perm {rs₁ rs₂ : List ParsedRecord} (h : rs₁.Perm rs₂) :
    yearly_summary rs₁ = yearly_summary rs₂ := by
  unfold yearly_summary
  rw [yearly_keys_perm h]
  exact List.map_congr_left (fun y _ => yearly_row_perm h y)

lemma ytd_summary_of_perm {sel₁ sel₂ : List ParsedRecord}
    (h : sel₁.Perm sel₂) (today : SDate) :
    ytd_summary_of sel₁ today = ytd_summary_of sel₂ today := by
  simp only [ytd_summary_of]
  rw [(h.map (fun r => r.Downtime_minutes)).sum_eq, h.length_eq]

lemma isEmpty_eq_of_perm {α : Type} {l₁ l₂ : List α} (h : l₁.Perm l₂) :
    l₁.isEmpty = l₂.isEmpty := by
  cases l₁ with
  | nil => rw [h.symm.eq_nil]
  | cons a t =>
    cases l₂ with
    | nil => exact absurd h.eq_nil (by simp)
    | cons b t2 => rfl

lemma summary_core_perm {rs₁ rs₂ : List ParsedRecord} (h : rs₁.Perm rs₂)
    (today : SDate) : summary_core rs₁ today = summary_core rs₂ today := by
  unfold summary_core
  rw [isEmpty_eq_of_perm h]
  cases hE : rs₂.isEmpty with
  | true => rfl
  | false =>
    simp only [Bool.false_eq_true, if_false]
    have hsel : (ytd_outages rs₁ today).Perm (ytd_outages rs₂ today) :=
      h.filter _
    rw [monthly_summary_perm h, yearly_summary_perm h,
      isEmpty_eq_of_perm hsel]
    cases hS : (ytd_outages rs₂ today).isEmpty with
    | true => rfl
    | false => rw [ytd_summary_of_perm hsel]

/-! ### Claim theorems -/

/-- Claim C8: for the empty record set, aggregation succeeds and returns an
empty monthly summary sequence, an empty yearly summary sequence, and an
absent year-to-date summary (the result dictionary carries no populated
`ytd` entry, observable as no YTD data). -/
theorem empty_input_summary (today : SDate) :
    (build_comprehensive_summary [] today).monthly = []
    ∧ (build_comprehensive_summary [] today).yearly = []
    ∧ (build_comprehensive_summary [] today).ytd = .missing
    ∧ (build_comprehensive_summary [] today).ytd.hasData = false :=
  ⟨rfl, rfl, rfl, rfl⟩

/-- Claim C9: the aggregator discards exactly the records whose date fails to
parse and computes every summary over the remaining records; a malformed date
never makes the aggregation fail (the function is total), and skipped rows
contribute to no monthly, yearly or year-to-date bucket, since the result
equals the result on the well-dated sub-list. -/
theorem aggregator_skips_unparseable (df : List RawRecord) (today : SDate) :
    build_comprehensive_summary df today =
      build_comprehensive_summary (df.filter (fun r => r.Date.isSome)) today := by
  rw [build_eq_core, build_eq_core, filterMap_parse_filter]

/-- Claim C10: with the current date held fixed,
`build_comprehensive_summary` returns identical monthly, yearly and
year-to-date summaries on any two record sequences that are permutations of
each other: the output depends only on the multiset of records. -/
theorem summary_order_invariant (df₁ df₂ : List RawRecord) (today : SDate)
    (h : df₁.Perm df₂) :
    build_comprehensive_summary df₁ today =
      build_comprehensive_summary df₂ today := by
  rw [build_eq_core, build_eq_core]
  exact summary_core_perm (h.filterMap _) today

/-- Witness for C10 at a concrete transposition of two records. -/
theorem summary_order_invariant_witness :
    build_comprehensive_summary [sampleRawMar1, sampleRawMar2] sampleToday =
      build_comprehensive_summary [sampleRawMar2, sampleRawMar1] sampleToday :=
  summary_order_invariant _ _ _ (List.Perm.swap _ _ _)

/-- Claim C4: whenever a YTD summary has `days_elapsed < 365`, the projection
equals the linear extrapolation
`projected_total = ytd_downtime + (ytd_downtime / days_elapsed) * (365 - days_elapsed)`
with availability `100 * (365*1050 - projected_total) / (365*1050)` over a
fixed 365-day year; with `days_elapsed ≥ 365` no projection is produced. -/
theorem projection_correct (y : YtdSummary) :
    (y.days_elapsed < 365 →
      projected_full_year y = some
        (y.total_downtime_minutes +
          y.total_downtime_minutes / (y.days_elapsed : ℚ) *
            ((365 : ℚ) - (y.days_elapsed : ℚ)),
         100 * ((365 * 1050 : ℚ) -
            (y.total_downtime_minutes +
              y.total_downtime_minutes / (y.days_elapsed : ℚ) *
                ((365 : ℚ) - (y.days_elapsed : ℚ)))) / (365 * 1050 : ℚ)))
    ∧ (365 ≤ y.days_elapsed → projected_full_year y = none) := by
  constructor
  · intro h
    have hc : ((365 - y.days_elapsed : Nat) : ℚ) =
        (365 : ℚ) - (y.days_elapsed : ℚ) := by
      rw [Nat.cast_sub (le_of_lt h)]
      push_cast
      ring
    simp only [projected_full_year, if_pos h, hc, Option.some.injEq,
      Prod.mk.injEq, BROADCAST_HOURS_PER_DAY]
    constructor
    · ring_nf
    · ring_nf
  · intro h
    simp only [projected_full_year, if_neg (not_lt.mpr h)]

/-- Witness for C4 at the spec's example (100 days, 500 minutes) and at a
completed year. -/
theorem projection_correct_witness :
    (projected_full_year ⟨2025, 100, 105000, 500, 0, 3, 500 / 3⟩ = some
      (500 + 500 / ((100 : ℕ) : ℚ) * ((365 : ℚ) - ((100 : ℕ) : ℚ)),
       100 * ((365 * 1050 : ℚ) -
          (500 + 500 / ((100 : ℕ) : ℚ) * ((365 : ℚ) - ((100 : ℕ) : ℚ)))) /
        (365 * 1050 : ℚ)))
    ∧ projected_full_year ⟨2025, 365, 383250, 500, 0, 3, 500 / 3⟩ = none :=
  ⟨(projection_correct _).1 (by decide), (projection_correct _).2 (by decide)⟩

/-- Claim C5: a new record is flagged as an overlap exactly when some
existing record with the same date satisfies `new.start < other.end` and
`new.end > other.start`; intervals that merely touch at a boundary are
accepted, and records on different dates never conflict. -/
theorem overlap_check_correct (df : List RawRecord) (d : SDate) (s e : Nat) :
    (check_duplicate_entry df d s e = true ↔
      ∃ r ∈ df, r.Date = some d ∧ s < r.End_Time ∧ e > r.Start_Time)
    ∧ ((∀ r ∈ df, r.Date = some d → (r.End_Time ≤ s ∨ e ≤ r.Start_Time)) →
        check_duplicate_entry df d s e = false)
    ∧ ((∀ r ∈ df, r.Date ≠ some d) → check_duplicate_entry df d s e = false) := by
  have h1 : check_duplicate_entry df d s e = true ↔
      ∃ r ∈ df, r.Date = some d ∧ s < r.End_Time ∧ e > r.Start_Time := by
    cases df with
    | nil => simp [check_duplicate_entry]
    | cons r t =>
      simp only [check_duplicate_entry, List.isEmpty_cons, Bool.false_eq_true,
        if_false, List.any_eq_true, List.mem_filter, Bool.and_eq_true,
        decide_eq_true_eq, beq_iff_eq]
      constructor
      · rintro ⟨x, ⟨hx, hxd⟩, hs, he⟩
        exact ⟨x, hx, hxd, hs, he⟩
      · rintro ⟨x, hx, hxd, hs, he⟩
        exact ⟨x, ⟨hx, hxd⟩, hs, he⟩
  refine ⟨h1, ?_, ?_⟩
  · intro hall
    rcases Bool.eq_false_or_eq_true (check_duplicate_entry df d s e) with hT | hF
    · obtain ⟨r, hr, hd, hs, he⟩ := h1.mp hT
      rcases hall r hr hd with h2 | h2 <;> omega
    · exact hF
  · intro hall
    rcases Bool.eq_false_or_eq_true (check_duplicate_entry df d s e) with hT | hF
    · obtain ⟨r, hr, hd, _, _⟩ := h1.mp hT
      exact absurd hd (hall r hr)
    · exact hF

/-- Witness for C5: against an existing 09:00-10:00 record, a touching
10:00-10:30 entry passes, and a record on another date never conflicts. -/
theorem overlap_check_correct_witness :
    check_duplicate_entry [sampleRawMar1] ⟨2024, 3, 5⟩ 600 630 = false
    ∧ check_duplicate_entry [sampleRawMar1] ⟨2024, 3, 6⟩ 570 585 = false :=
  ⟨(overlap_check_correct _ _ _ _).2.1 (by decide),
   (overlap_check_correct _ _ _ _).2.2 (by decide)⟩

/-- Claim C6: the time validation accepts exactly when `end > start`,
`start ≥ 04:30` and `end ≤ 22:00`; chronology is checked first, so
`end ≤ start` always yields the end-before-start reason, and a
chronologically valid pair violating the window yields the broadcast-hours
reason. -/
theorem time_validation_correct (s e : Nat) (d : SDate) :
    ((validate_time_input s e d).1 = true ↔ (s < e ∧ 270 ≤ s ∧ e ≤ 1320))
    ∧ (e ≤ s →
        validate_time_input s e d = (false, "End time must be after start time"))
    ∧ (s < e → (s < 270 ∨ 1320 < e) →
        validate_time_input s e d =
          (false, "Times must be within broadcast hours (4:30 AM - 10:00 PM)")) := by
  unfold validate_time_input
  refine ⟨?_, ?_, ?_⟩
  · rcases le_or_lt e s with h | h
    · simp only [if_pos h]
      constructor
      · intro h2; simp at h2
      · intro h2; omega
    · rw [if_neg (not_le.mpr h)]
      by_cases h2 : s < 270 || 1320 < e
      · rw [if_pos h2]
        simp only [Bool.or_eq_true, decide_eq_true_eq] at h2
        constructor
        · intro h3; simp at h3
        · intro h3; omega
      · rw [if_neg h2]
        simp only [Bool.or_eq_true, decide_eq_true_eq, not_or, not_lt] at h2
        constructor
        · intro _; exact ⟨h, h2.1, h2.2⟩
        · intro _; rfl
  · intro h
    rw [if_pos h]
  · intro h h2
    rw [if_neg (not_le.mpr h), if_pos]
    simp only [Bool.or_eq_true, decide_eq_true_eq]
    exact h2

/-- Witness for C6 at the spec's rejection examples. -/
theorem time_validation_correct_witness :
    validate_time_input 600 540 ⟨2024, 5, 1⟩ =
      (false, "End time must be after start time")
    ∧ validate_time_input 240 300 ⟨2024, 5, 1⟩ =
      (false, "Times must be within broadcast hours (4:30 AM - 10:00 PM)") :=
  ⟨(time_validation_correct 600 540 _).2.1 (by decide),
   (time_validation_correct 240 300 _).2.2 (by decide) (by decide)⟩

/-- Claim C7 (counterexample): the edit path accepts an update that overlaps
another record on the same date — editing the 11:00-12:00 record of
2024-03-05 to 09:30-09:45 succeeds although the remaining 09:00-10:00 record
overlaps it — so the edit path does not re-run the overlap check, contrary to
the claim. -/
theorem edit_path_overlap_counterexample :
    (edit_record [sampleRawMar1, sampleRawMar2] 1 ⟨2024, 3, 5⟩ 570 585
      "Power" "").isSome = true
    ∧ check_duplicate_entry
        (([sampleRawMar1, sampleRawMar2] : List RawRecord).eraseIdx 1)
        ⟨2024, 3, 5⟩ 570 585 = true := by
  exact ⟨by decide, by decide⟩

/-- Claim C7 (amended): the edit path re-runs the required-field validation
and the time validation (chronology and broadcast-window containment) before
updating the record in place, but performs no overlap check against the other
records. -/
theorem edit_path_validation (df : List RawRecord) (i : Nat) (date : SDate)
    (s e : Nat) (ft rm : String) :
    ((edit_record df i date s e ft rm).isSome = true ↔
      (pyStrip ft ≠ "" ∧ s < e ∧ 270 ≤ s ∧ e ≤ 1320))
    ∧ (∀ df2, edit_record df i date s e ft rm = some df2 →
        df2 = df.set i
          ⟨some date, s, e, (e : ℚ) - (s : ℚ), ft, rm⟩) := by
  have hreq : (validate_required_fields (some date) (some s) (some e) ft).1
      = true ↔ pyStrip ft ≠ "" := by
    simp only [validate_required_fields, Option.isNone_some, Bool.false_eq_true,
      if_false]
    by_cases h : pyStrip ft == ""
    · simp only [if_pos h]
      simp only [beq_iff_eq] at h
      simp [h]
    · simp only [if_neg h]
      simp only [beq_iff_eq] at h
      simp [h]
  have htime : (validate_time_input s e date).1 = true ↔
      (s < e ∧ 270 ≤ s ∧ e ≤ 1320) := (time_validation_correct s e date).1
  constructor
  · unfold edit_record
    by_cases h1 : (validate_required_fields (some date) (some s) (some e) ft).1
    · by_cases h2 : (validate_time_input s e date).1
      · simp only [h1, h2, Bool.not_true, Bool.false_eq_true, if_false,
          Option.isSome_some]
        simp only [true_iff]
        exact ⟨hreq.mp h1, (htime.mp h2).1, (htime.mp h2).2.1, (htime.mp h2).2.2⟩
      · simp only [h1, Bool.not_true, Bool.false_eq_true, if_false,
          Bool.not_eq_true] at *
        simp only [h2, Bool.not_false, if_pos, Option.isSome_none,
          Bool.false_eq_true, false_iff]
        intro hc
        exact absurd (htime.mpr ⟨hc.2.1, hc.2.2.1, hc.2.2.2⟩) (by simp [h2])
    · simp only [Bool.not_eq_true] at h1
      simp only [h1, Bool.not_false, if_pos, Option.isSome_none,
        Bool.false_eq_true, false_iff]
      intro hc
      exact absurd (hreq.mpr hc.1) (by simp [h1])
  · intro df2 hdf2
    unfold edit_record at hdf2
    by_cases h1 : (validate_required_fields (some date) (some s) (some e) ft).1
    · by_cases h2 : (validate_time_input s e date).1
      · simp only [h1, h2, Bool.not_true, Bool.false_eq_true, if_false,
          Option.some.injEq] at hdf2
        exact hdf2.symm
      · simp only [Bool.not_eq_true] at h2
        simp only [h1, h2, Bool.not_true, Bool.not_false, Bool.false_eq_true,
          if_false, if_pos] at hdf2
        exact Option.noConfusion hdf2
    · simp only [Bool.not_eq_true] at h1
      simp only [h1, Bool.not_false, if_pos] at hdf2
      exact Option.noConfusion hdf2

/-- Witness for C7's amended theorem: a conflict-free edit succeeds. -/
theorem edit_path_validation_witness :
    (edit_record [sampleRawMar1, sampleRawMar2] 1 ⟨2024, 3, 6⟩ 570 585
      "Power" "").isSome = true :=
  (edit_path_validation _ _ _ _ _ _ _).1.mpr (by decide)

lemma is_leap_year_iff (y : Nat) :
    is_leap_year y = true ↔ (y % 4 = 0 ∧ (y % 100 ≠ 0 ∨ y % 400 = 0)) := by
  simp [is_leap_year, Bool.and_eq_true, Bool.or_eq_true, beq_iff_eq,
    bne_iff_ne]

/-- Claim C1: monthly aggregation groups the records by `(year, month)` of
the date; each row carries the group's total downtime, failure count,
average `total / count`, the proleptic-Gregorian days in month, the budget
`days_in_month * 1050` and availability
`100 * (budget - total) / budget`; the rows are strictly ascending in
`(year, month number)`. -/
theorem monthly_aggregation_correct (rs : List ParsedRecord) (hne : rs ≠ []) :
    ((monthly_summary rs).Pairwise (fun a b =>
        a.Year < b.Year ∨ (a.Year = b.Year ∧ a.Month_Num < b.Month_Num)))
    ∧ (∀ y m : Nat,
        (∃ row ∈ monthly_summary rs, row.Year = y ∧ row.Month_Num = m) ↔
          ∃ r ∈ rs, r.Date.year = y ∧ r.Date.month = m)
    ∧ (∀ row ∈ monthly_summary rs,
        row.Total_Downtime_Minutes =
          ((month_group rs row.Year row.Month_Num).map
            (fun r => r.Downtime_minutes)).sum
        ∧ row.Failure_Count = (month_group rs row.Year row.Month_Num).length
        ∧ row.Avg_Downtime_Per_Failure =
            row.Total_Downtime_Minutes / (row.Failure_Count : ℚ)
        ∧ row.Days_in_Month = days_in_month row.Year row.Month_Num
        ∧ row.Total_Broadcast_Minutes = (row.Days_in_Month : ℚ) * 1050
        ∧ row.Availability_pct =
            100 * (row.Total_Broadcast_Minutes - row.Total_Downtime_Minutes) /
              row.Total_Broadcast_Minutes) := by
  refine ⟨?_, ?_, ?_⟩
  · unfold monthly_summary
    rw [List.pairwise_map]
    refine List.Pairwise.imp ?_ (monthly_keys_strict rs)
    intro a b h
    exact h
  · intro y m
    constructor
    · rintro ⟨row, hrow, hy, hm⟩
      unfold monthly_summary at hrow
      obtain ⟨k, hk, rfl⟩ := List.mem_map.mp hrow
      obtain ⟨r, hr, hkey⟩ := (mem_monthly_keys rs k).mp hk
      refine ⟨r, hr, ?_, ?_⟩
      · exact (congrArg Prod.fst hkey).trans hy
      · exact (congrArg Prod.snd hkey).trans hm
    · rintro ⟨r, hr, hy, hm⟩
      refine ⟨monthly_row rs (y, m), ?_, rfl, rfl⟩
      unfold monthly_summary
      apply List.mem_map_of_mem
      exact (mem_monthly_keys rs (y, m)).mpr
        ⟨r, hr, by simp [month_key, hy, hm]⟩
  · intro row hrow
    unfold monthly_summary at hrow
    obtain ⟨k, hk, rfl⟩ := List.mem_map.mp hrow
    refine ⟨rfl, rfl, rfl, rfl, ?_, ?_⟩
    · simp only [monthly_row, BROADCAST_HOURS_PER_DAY]
      ring
    · simp only [monthly_row, BROADCAST_HOURS_PER_DAY]
      ring

/-- Witness for C1: the sorted-rows part at a concrete two-month log. -/
theorem monthly_aggregation_correct_witness :
    ((monthly_summary [sampleFeb, sampleJan]).Pairwise (fun a b =>
      a.Year < b.Year ∨ (a.Year = b.Year ∧ a.Month_Num < b.Month_Num))) :=
  (monthly_aggregation_correct [sampleFeb, sampleJan] (by decide)).1

/-- Claim C2: yearly aggregation groups the records by year; each row
carries the total downtime, failure count, mean, the maximum and minimum
single-outage downtime (also exposed in hours as minutes over 60), the
leap-year-sensitive days in year (standard Gregorian rule), the budget
`days_in_year * 1050` and availability `100 * (budget - total) / budget`. -/
theorem yearly_aggregation_correct (rs : List ParsedRecord) (hne : rs ≠ []) :
    (∀ y : Nat, (∃ row ∈ yearly_summary rs, row.Year = y) ↔
      ∃ r ∈ rs, r.Date.year = y)
    ∧ (∀ row ∈ yearly_summary rs,
        row.Total_Downtime_Minutes =
          ((year_group rs row.Year).map (fun r => r.Downtime_minutes)).sum
        ∧ row.Failure_Count = (year_group rs row.Year).length
        ∧ row.Avg_Downtime_Per_Failure =
            row.Total_Downtime_Minutes / (row.Failure_Count : ℚ)
        ∧ row.Max_Downtime ∈
            (year_group rs row.Year).map (fun r => r.Downtime_minutes)
        ∧ (∀ x ∈ (year_group rs row.Year).map (fun r => r.Downtime_minutes),
            x ≤ row.Max_Downtime)
        ∧ row.Min_Downtime ∈
            (year_group rs row.Year).map (fun r => r.Downtime_minutes)
        ∧ (∀ x ∈ (year_group rs row.Year).map (fun r => r.Downtime_minutes),
            row.Min_Downtime ≤ x)
        ∧ row.Max_Downtime_hours = row.Max_Downtime / 60
        ∧ row.Min_Downtime_hours = row.Min_Downtime / 60
        ∧ row.Days_in_Year =
            (if row.Year % 4 = 0 ∧ (row.Year % 100 ≠ 0 ∨ row.Year % 400 = 0)
              then 366 else 365)
        ∧ row.Total_Broadcast_Minutes = (row.Days_in_Year : ℚ) * 1050
        ∧ row.Availability_pct =
            100 * (row.Total_Broadcast_Minutes - row.Total_Downtime_Minutes) /
              row.Total_Broadcast_Minutes) := by
  constructor
  · intro y
    constructor
    · rintro ⟨row, hrow, hy⟩
      unfold yearly_summary at hrow
      obtain ⟨k, hk, rfl⟩ := List.mem_map.mp hrow
      obtain ⟨r, hr, hkey⟩ := (mem_yearly_keys rs k).mp hk
      exact ⟨r, hr, hkey.trans hy⟩
    · rintro ⟨r, hr, hy⟩
      refine ⟨yearly_row rs y, ?_, rfl⟩
      unfold yearly_summary
      apply List.mem_map_of_mem
      exact (mem_yearly_keys rs y).mpr ⟨r, hr, hy⟩
  · intro row hrow
    unfold yearly_summary at hrow
    obtain ⟨k, hk, rfl⟩ := List.mem_map.mp hrow
    obtain ⟨r, hr, hy⟩ := (mem_yearly_keys rs k).mp hk
    have hgrp : r ∈ year_group rs k :=
      List.mem_filter.mpr ⟨hr, beq_iff_eq.mpr hy⟩
    have hds : (year_group rs k).map (fun r => r.Downtime_minutes) ≠ [] :=
      List.ne_nil_of_mem (List.mem_map_of_mem _ hgrp)
    obtain ⟨hmx, hbx⟩ :=
      list_max_spec ((year_group rs k).map (fun r => r.Downtime_minutes)) hds
    obtain ⟨hmn, hbn⟩ :=
      list_min_spec ((year_group rs k).map (fun r => r.Downtime_minutes)) hds
    refine ⟨rfl, rfl, rfl, hmx, hbx, hmn, hbn, rfl, rfl, ?_, ?_, ?_⟩
    · exact if_congr (is_leap_year_iff k) rfl rfl
    · simp only [yearly_row, BROADCAST_HOURS_PER_DAY]
      ring
    · simp only [yearly_row, BROADCAST_HOURS_PER_DAY]
      ring

/-- Witness for C2: the year-coverage part at a concrete log. -/
theorem yearly_aggregation_correct_witness :
    ∃ row ∈ yearly_summary [sampleFeb, sampleJan], row.Year = 2024 :=
  ((yearly_aggregation_correct [sampleFeb, sampleJan] (by decide)).1 2024).mpr
    ⟨sampleFeb, List.mem_cons_self _ _, rfl⟩

/-- Claim C3: the year-to-date summary is computed over exactly the records
of the current year dated no later than today; if no such record exists no
summary object is produced (callers observe no YTD data); otherwise it
carries `days_elapsed` (ordinal day of today), budget
`days_elapsed * 1050`, the selection's total downtime, availability
`100 * (budget - total) / budget`, the failure count and the mean. -/
theorem ytd_summary_correct (df : List RawRecord) (today : SDate) :
    (ytd_outages (df.filterMap parse_record) today = [] →
      (build_comprehensive_summary df today).ytd.hasData = false)
    ∧ (∀ r : ParsedRecord,
        r ∈ ytd_outages (df.filterMap parse_record) today ↔
          (r ∈ df.filterMap parse_record ∧ r.Date.year = today.year ∧
            dateLeB r.Date today = true))
    ∧ (ytd_outages (df.filterMap parse_record) today ≠ [] →
      (build_comprehensive_summary df today).ytd = .present
        { current_year := today.year
          days_elapsed := day_of_year today
          total_broadcast_minutes := (day_of_year today : ℚ) * 1050
          total_downtime_minutes :=
            ((ytd_outages (df.filterMap parse_record) today).map
              (fun r => r.Downtime_minutes)).sum
          ytd_availability_pct :=
            100 * ((day_of_year today : ℚ) * 1050 -
              ((ytd_outages (df.filterMap parse_record) today).map
                (fun r => r.Downtime_minutes)).sum) /
              ((day_of_year today : ℚ) * 1050)
          failure_count := (ytd_outages (df.filterMap parse_record) today).length
          avg_downtime_per_failure :=
            ((ytd_outages (df.filterMap parse_record) today).map
              (fun r => r.Downtime_minutes)).sum /
              ((ytd_outages (df.filterMap parse_record) today).length : ℚ) }) := by
  refine ⟨?_, ?_, ?_⟩
  · intro h
    rw [build_eq_core]
    unfold summary_core
    by_cases hE : (df.filterMap parse_record).isEmpty
    · rw [if_pos hE]; rfl
    · rw [if_neg hE]
      simp only [h, List.isEmpty_nil, if_pos]
      rfl
  · intro r
    unfold ytd_outages
    rw [List.mem_filter]
    simp [Bool.and_eq_true, beq_iff_eq]
  · intro h
    have hrs : ¬(df.filterMap parse_record).isEmpty = true := by
      intro h0
      apply h
      unfold ytd_outages
      rw [List.isEmpty_iff.mp h0]
      rfl
    have hsel2 : (ytd_outages (df.filterMap parse_record) today).isEmpty
        = false :=
      Bool.eq_false_iff.mpr (fun h0 => h (List.isEmpty_iff.mp h0))
    rw [build_eq_core]
    unfold summary_core
    rw [if_neg hrs]
    simp only [hsel2, Bool.false_eq_true, if_false]
    unfold ytd_summary_of
    simp only [YtdField.present.injEq, YtdSummary.mk.injEq, true_and,
      and_true]
    constructor
    · rw [BROADCAST_HOURS_PER_DAY]; ring
    · rw [BROADCAST_HOURS_PER_DAY]; ring

/-- Witness for C3: YTD absent when no record of the current year exists,
present for a record dated earlier in the current year. -/
theorem ytd_summary_correct_witness :
    (build_comprehensive_summary [sampleRawFeb] ⟨2023, 10, 12⟩).ytd.hasData
        = false
    ∧ (build_comprehensive_summary [sampleRawFeb] sampleToday).ytd.hasData
        = true := by
  refine ⟨(ytd_summary_correct [sampleRawFeb] ⟨2023, 10, 12⟩).1 (by decide), ?_⟩
  rw [(ytd_summary_correct [sampleRawFeb] sampleToday).2.2 (by decide)]
  rfl

end RWOutage
